import Mathlib

/-!
Shallow embedding of the outbound request bridge of the TodayPickup proxy
repository, together with the service-layer error envelope.

The repository contains three near-duplicate bridge variants:
  * `app/repositories/base.py` (`BaseRepository._build_headers`,
    `BaseRepository._handle_response`) on top of
    `app/core/http_client.py` (`HTTPClient._make_request`),
  * `app/repositories/base_repository.py` (`BaseRepository._request`,
    used by `MallRepository` and `AgencyRepository`),
  * `app/repositories/remote_repository.py` (`TodayPickupRepository.request`).

Modelling conventions:
  * Python dicts are association lists in insertion order; `dict.update`
    and item assignment are modelled by `setKey` / `dictUpdate`.
  * An `httpx.Response` is modelled by its status code, its raw body text
    and the outcome of `response.json()`: the field `jsonBody` is `some j`
    exactly when the body text is valid JSON parsing to `j`, and `none`
    when `response.json()` raises `JSONDecodeError`.
  * The wire is modelled by a `Transport` function from the outbound
    request to either a response or a transport-level failure
    (`httpx.RequestError`: timeout, connection failure, DNS failure).
    Each bridge operation returns the list of wire-level calls it issued
    together with its `Except` outcome, so call counts are observable.
  * Python exceptions are the inductive `Exn`; `excMessage` models
    `str(e)` (its exact wording is irrelevant to every property proved
    below, only its presence in formatted messages matters).
-/

/-- JSON values as produced by the `json` module of Python via
`httpx.Response.json()`. Arrays are not needed by any operation modelled
here except as opaque parsed bodies, so objects, strings, numbers,
booleans and null suffice. -/
inductive Json where
  | null : Json
  | bool : Bool → Json
  | num : Int → Json
  | str : String → Json
  | obj : List (String × Json) → Json
deriving Repr

mutual

/-- Decidable equality on JSON values (hand written because the nested
list occurrence defeats the deriving handler). -/
def Json.decEq : (a b : Json) → Decidable (a = b)
  | .null, .null => .isTrue rfl
  | .bool x, .bool y =>
      if h : x = y then .isTrue (by rw [h])
      else .isFalse (fun hc => h (Json.bool.inj hc))
  | .num x, .num y =>
      if h : x = y then .isTrue (by rw [h])
      else .isFalse (fun hc => h (Json.num.inj hc))
  | .str x, .str y =>
      if h : x = y then .isTrue (by rw [h])
      else .isFalse (fun hc => h (Json.str.inj hc))
  | .obj xs, .obj ys =>
      match Json.decEqFields xs ys with
      | .isTrue h => .isTrue (by rw [h])
      | .isFalse h => .isFalse (fun hc => h (Json.obj.inj hc))
  | .null, .bool _ => .isFalse (fun h => Json.noConfusion h)
  | .null, .num _ => .isFalse (fun h => Json.noConfusion h)
  | .null, .str _ => .isFalse (fun h => Json.noConfusion h)
  | .null, .obj _ => .isFalse (fun h => Json.noConfusion h)
  | .bool _, .null => .isFalse (fun h => Json.noConfusion h)
  | .bool _, .num _ => .isFalse (fun h => Json.noConfusion h)
  | .bool _, .str _ => .isFalse (fun h => Json.noConfusion h)
  | .bool _, .obj _ => .isFalse (fun h => Json.noConfusion h)
  | .num _, .null => .isFalse (fun h => Json.noConfusion h)
  | .num _, .bool _ => .isFalse (fun h => Json.noConfusion h)
  | .num _, .str _ => .isFalse (fun h => Json.noConfusion h)
  | .num _, .obj _ => .isFalse (fun h => Json.noConfusion h)
  | .str _, .null => .isFalse (fun h => Json.noConfusion h)
  | .str _, .bool _ => .isFalse (fun h => Json.noConfusion h)
  | .str _, .num _ => .isFalse (fun h => Json.noConfusion h)
  | .str _, .obj _ => .isFalse (fun h => Json.noConfusion h)
  | .obj _, .null => .isFalse (fun h => Json.noConfusion h)
  | .obj _, .bool _ => .isFalse (fun h => Json.noConfusion h)
  | .obj _, .num _ => .isFalse (fun h => Json.noConfusion h)
  | .obj _, .str _ => .isFalse (fun h => Json.noConfusion h)

/-- Decidable equality on JSON object field lists. -/
def Json.decEqFields : (xs ys : List (String × Json)) → Decidable (xs = ys)
  | [], [] => .isTrue rfl
  | [], _ :: _ => .isFalse (fun h => List.noConfusion h)
  | _ :: _, [] => .isFalse (fun h => List.noConfusion h)
  | (k1, v1) :: r1, (k2, v2) :: r2 =>
      match String.decEq k1 k2 with
      | .isFalse hk => .isFalse (fun h => hk (by cases h; rfl))
      | .isTrue hk =>
          match Json.decEq v1 v2 with
          | .isFalse hv => .isFalse (fun h => hv (by cases h; rfl))
          | .isTrue hv =>
              match Json.decEqFields r1 r2 with
              | .isFalse hr => .isFalse (fun h => hr (by cases h; rfl))
              | .isTrue hr => .isTrue (by rw [hk, hv, hr])

end

instance : DecidableEq Json := Json.decEq

/-- Item assignment `d[k] = v` on a Python dict modelled as an insertion
ordered association list: replace the value in place when the key is
present, append the pair otherwise. -/
def setKey {α : Type} : List (String × α) → String → α → List (String × α)
  | [], k, v => [(k, v)]
  | (k2, v2) :: rest, k, v =>
      if k2 = k then (k, v) :: rest else (k2, v2) :: setKey rest k v

/-- Python `d.update(h)`: assign every pair of `h` into `d` in order. -/
def dictUpdate {α : Type} (d h : List (String × α)) : List (String × α) :=
  h.foldl (fun acc kv => setKey acc kv.1 kv.2) d

/-- Python `d.get(k)`: the first value stored under `k`, if any. -/
def dictGet {α : Type} : List (String × α) → String → Option α
  | [], _ => none
  | (k2, v2) :: rest, k => if k2 = k then some v2 else dictGet rest k

/-- Model of an `httpx.Response`: the integer status code, the raw body
text (`response.text`), and the outcome of `response.json()` — `some j`
when the text is valid JSON parsing to `j`, `none` when parsing raises. -/
structure Response where
  status_code : Nat
  text : String
  jsonBody : Option Json
deriving Repr, DecidableEq

/-- Python exceptions raised along the paths modelled here.
`httpStatusError` is `httpx.HTTPStatusError` and carries the response it
was raised for; `requestError` is `httpx.RequestError` carrying the
underlying transport cause; `jsonDecodeError` is the JSON decode failure
of `response.json()`; `apiError` is the generic
`Exception("API Error: " + repr(error_data))` of
`app/repositories/base.py`, modelled as carrying the `error_data` dict
that the source formats into its message string. -/
inductive Exn where
  | httpStatusError : Response → Exn
  | requestError : String → Exn
  | jsonDecodeError : String → Exn
  | apiError : Json → Exn
deriving Repr, DecidableEq

/-- Model of `str(e)` for the exceptions above. The wording abbreviates
the messages of the underlying libraries; no property below depends on
the exact text, only on where it is embedded. -/
def excMessage : Exn → String
  | .httpStatusError r => "HTTP status error " ++ toString r.status_code
  | .requestError cause => cause
  | .jsonDecodeError t => "Expecting value: " ++ t
  | .apiError _ => "API Error"

/-- Model of `httpx.Response.is_success`: the status code lies in the 2xx
range. -/
def isSuccess (r : Response) : Bool :=
  decide (200 ≤ r.status_code) && decide (r.status_code ≤ 299)

/-- Model of `httpx.Response.raise_for_status()`: return the response on a
2xx status, raise `httpx.HTTPStatusError` (carrying the response) on any
other status. -/
def raise_for_status (r : Response) : Except Exn Response :=
  if isSuccess r then .ok r else .error (.httpStatusError r)

/-- Model of `response.json()`: the parsed body, or a raised
`JSONDecodeError` when the body text is not valid JSON. -/
def responseJson (r : Response) : Except Exn Json :=
  match r.jsonBody with
  | some j => .ok j
  | none => .error (.jsonDecodeError r.text)

/-- Embedding of `BaseRepository._handle_response` from
`app/repositories/base.py`: call `raise_for_status` then `response.json()`
inside a `try`; on any exception, best-effort re-parse the body as the
error data, falling back to a dict of `str(e)` and the status code, and
raise the generic `API Error` exception carrying that data. -/
def handle_response (r : Response) : Except Exn Json :=
  let firstTry : Except Exn Json :=
    match raise_for_status r with
    | .error e => .error e
    | .ok r2 => responseJson r2
  match firstTry with
  | .ok j => .ok j
  | .error e =>
      let error_data : Json :=
        match r.jsonBody with
        | some j => j
        | none =>
            .obj [("message", .str (excMessage e)),
                  ("status_code", .num (Int.ofNat r.status_code))]
      .error (.apiError error_data)

/-- The status code recoverable from an exception value: a
`httpx.HTTPStatusError` carries its response, and the fallback
`error_data` dict of `_handle_response` records a `status_code` entry.
An `apiError` whose data is a re-parsed JSON body without such an entry
carries no status code. -/
def exnStatus : Exn → Option Nat
  | .httpStatusError r => some r.status_code
  | .apiError (.obj fields) =>
      match dictGet fields "status_code" with
      | some (.num n) => some n.toNat
      | _ => none
  | _ => none

/-- HTTP headers: a Python dict of string to string. -/
abbrev Headers := List (String × String)

/-- URL query parameters: a Python dict of string to string. -/
abbrev Params := List (String × String)

/-- The outbound wire-level HTTP request handed to the httpx client:
method, url (relative to the configured base url for clients constructed
with one, absolute for the variant that concatenates), headers, query
parameters and JSON body exactly as passed to the client. -/
structure OutboundRequest where
  method : String
  url : String
  headers : Option Headers
  params : Option Params
  body : Option Json
deriving Repr, DecidableEq

/-- What the wire does with one outbound request: deliver a response, or
fail at transport level (`httpx.RequestError`: timeout, connection
failure, DNS failure) with an underlying cause. -/
inductive TransportResult where
  | response : Response → TransportResult
  | failure : String → TransportResult
deriving Repr, DecidableEq

/-- The network environment: a deterministic upstream mapping each
outbound request to its transport outcome. -/
abbrev Transport := OutboundRequest → TransportResult

/-- Embedding of `BaseRepository._request` from
`app/repositories/base_repository.py`: issue exactly one request through
`self.client.request(method, endpoint, json=data, params=params,
headers=headers)`, call `raise_for_status()`, and return the response;
`httpx.HTTPStatusError` and `httpx.RequestError` are caught, logged and
re-raised unchanged. The first component is the list of wire-level calls
issued. -/
def baseRepositoryRequest (transport : Transport) (method endpoint : String)
    (data : Option Json) (params : Option Params) (headers : Option Headers) :
    List OutboundRequest × Except Exn Response :=
  let req : OutboundRequest := ⟨method, endpoint, headers, params, data⟩
  ([req],
    match transport req with
    | .response r => raise_for_status r
    | .failure cause => .error (.requestError cause))

/-- Embedding of `TodayPickupRepository.request` from
`app/repositories/remote_repository.py`: one call through
`self.client.request(method, path, headers=headers, json=json)` followed
by `raise_for_status()`; nothing is caught, so transport errors and
status errors propagate unchanged. -/
def todayPickupRequest (transport : Transport) (method path : String)
    (headers : Headers) (json : Option Json) :
    List OutboundRequest × Except Exn Response :=
  let req : OutboundRequest := ⟨method, path, some headers, none, json⟩
  ([req],
    match transport req with
    | .response r => raise_for_status r
    | .failure cause => .error (.requestError cause))

/-- Embedding of the fields of `Settings` in `app/core/config.py` that the
bridge reads. `HTTP_RETRIES` is declared in the source but never read by
any code path. -/
structure Settings where
  TODAYPICKUP_BASE_URL : String := "https://admin.todaypickup.com"
  HTTP_TIMEOUT : Nat := 30
  HTTP_RETRIES : Nat := 3
deriving Repr, DecidableEq

/-- The module-level `settings = Settings()` instance with every field at
its declared default. -/
def settings : Settings := ⟨"https://admin.todaypickup.com", 30, 3⟩

/-- State of an `HTTPClient` instance (`app/core/http_client.py`): the
base url and the per-instance timeout, both read from settings. -/
structure HTTPClient where
  base_url : String
  timeout : Nat
deriving Repr, DecidableEq

/-- Embedding of `HTTPClient.__init__`. -/
def HTTPClient.init (s : Settings) : HTTPClient :=
  ⟨s.TODAYPICKUP_BASE_URL, s.HTTP_TIMEOUT⟩

/-- The module-level shared instance `http_client = HTTPClient()`. -/
def http_client : HTTPClient := HTTPClient.init settings

/-- Behaviour of the httpx library, not of this repository: an
`httpx.AsyncClient` constructed without a `timeout` argument uses the
library default `httpx.Timeout(timeout=5.0)`, five seconds. -/
def httpxDefaultTimeoutSeconds : Nat := 5

/-- Configuration of an `httpx.AsyncClient` as visible to the code here:
its base url and its effective timeout in seconds. -/
structure AsyncClientConfig where
  base_url : String
  timeout : Nat
deriving Repr, DecidableEq

/-- Embedding of `BaseRepository.__init__` from
`app/repositories/base_repository.py`: stores `base_url` and constructs
`httpx.AsyncClient(base_url=self.base_url)` with no timeout argument, so
the client runs at the library default timeout. -/
def baseRepositoryInit (base_url : String) : AsyncClientConfig :=
  ⟨base_url, httpxDefaultTimeoutSeconds⟩

/-- Embedding of `TodayPickupRepository.__init__` from
`app/repositories/remote_repository.py`: identical client construction,
again with no timeout argument. -/
def todayPickupRepositoryInit (base_url : String) : AsyncClientConfig :=
  ⟨base_url, httpxDefaultTimeoutSeconds⟩

/-- Embedding of `HTTPClient._make_request` from
`app/core/http_client.py`: build `url = base_url + endpoint`, start from
the hard-coded default headers `Content-Type: application/json` and
`Accept: application/json`, merge the caller headers over them when
truthy, and issue exactly one request. No `raise_for_status` is called:
the response is returned whatever its status; a transport failure
propagates as the raised `httpx` error. -/
def makeRequest (client : HTTPClient) (transport : Transport)
    (method endpoint : String) (headers : Option Headers)
    (params : Option Params) (json_data : Option Json) :
    List OutboundRequest × Except Exn Response :=
  let url := client.base_url ++ endpoint
  let default_headers : Headers :=
    [("Content-Type", "application/json"), ("Accept", "application/json")]
  let merged : Headers :=
    match headers with
    | some h => if h.isEmpty then default_headers else dictUpdate default_headers h
    | none => default_headers
  let req : OutboundRequest := ⟨method, url, some merged, params, json_data⟩
  ([req],
    match transport req with
    | .response r => .ok r
    | .failure cause => .error (.requestError cause))

/-- Embedding of `AuthInfo` from `app/models/base.py`. -/
structure AuthInfo where
  agency_id : String
  auth_token : String
deriving Repr, DecidableEq

/-- Embedding of `AuthInfo.to_headers`: the token under `Authorization`
and the agency identifier under `AgencyId` (capital A, capital I). -/
def AuthInfo.to_headers (a : AuthInfo) : Headers :=
  [("Authorization", a.auth_token), ("AgencyId", a.agency_id)]

/-- Embedding of `BaseRepository._build_headers` from
`app/repositories/base.py`: start from `auth_info.to_headers()` and, when
`additional_headers` is supplied and truthy (a nonempty dict), apply
`headers.update(additional_headers)`. -/
def build_headers (auth_info : AuthInfo) (additional_headers : Option Headers) :
    Headers :=
  let headers := auth_info.to_headers
  match additional_headers with
  | some h => if h.isEmpty then headers else dictUpdate headers h
  | none => headers

/-- Embedding of `MallRepository.find_by_invoice`: one GET to
`/api/mall/delivery/` followed by the invoice number, with the single
header `Authorization: token`, returning `response.text`. -/
def find_by_invoice (transport : Transport) (invoice_number token : String) :
    List OutboundRequest × Except Exn String :=
  let headers : Headers := [("Authorization", token)]
  let res := baseRepositoryRequest transport "GET"
    ("/api/mall/delivery/" ++ invoice_number) none none (some headers)
  (res.1, res.2.map Response.text)

/-- The headers `AgencyRepository.check_auth` builds: the token under
`Authorization` and the agency identifier under `agencyId` (lower-case
a). -/
def checkAuthHeaders (token agency_id : String) : Headers :=
  [("Authorization", token), ("agencyId", agency_id)]

/-- Embedding of `AgencyRepository.check_auth`: one POST to
`/api/agency/auth` with those headers and no body, returning
`response.text`. -/
def check_auth (transport : Transport) (token agency_id : String) :
    List OutboundRequest × Except Exn String :=
  let res := baseRepositoryRequest transport "POST" "/api/agency/auth"
    none none (some (checkAuthHeaders token agency_id))
  (res.1, res.2.map Response.text)

/-- Embedding of `DeliveryAgencyStateUpdateDTO` from
`app/schemas/agency_schemas.py`: four optional fields whose pydantic
field names are exactly the camelCase strings below. -/
structure DeliveryAgencyStateUpdateDTO where
  holdCode : Option String
  imgUrl : Option String
  invoiceNumber : Option String
  status : Option String
deriving Repr, DecidableEq

/-- Embedding of `dto.model_dump(exclude_none=True)` for that DTO: a JSON
object listing, in declaration order, each field that is not None under
its exact field name. -/
def DeliveryAgencyStateUpdateDTO.modelDump (d : DeliveryAgencyStateUpdateDTO) :
    Json :=
  .obj (
    (match d.holdCode with | some s => [("holdCode", Json.str s)] | none => []) ++
    (match d.imgUrl with | some s => [("imgUrl", Json.str s)] | none => []) ++
    (match d.invoiceNumber with
     | some s => [("invoiceNumber", Json.str s)] | none => []) ++
    (match d.status with | some s => [("status", Json.str s)] | none => []))

/-- Embedding of `AgencyRepository.update_delivery_state`: one PUT to
`/api/agency/delivery/state` with `data=dto.model_dump(exclude_none=True)`
and headers `Authorization` / `agencyId`, returning `response.text`. -/
def update_delivery_state (transport : Transport)
    (dto : DeliveryAgencyStateUpdateDTO) (token agency_id : String) :
    List OutboundRequest × Except Exn String :=
  let headers : Headers := [("Authorization", token), ("agencyId", agency_id)]
  let res := baseRepositoryRequest transport "PUT" "/api/agency/delivery/state"
    (some dto.modelDump) none (some headers)
  (res.1, res.2.map Response.text)

/-- Python truthiness of an optional string: None and the empty string are
falsy, every other string is truthy. -/
def pyTruthy : Option String → Bool
  | none => false
  | some s => !s.isEmpty

/-- The query parameter dict `MallRepository.possible_delivery` builds:
`address` always, then `postalCode` and `dawnDelivery` added by item
assignment only when the corresponding argument is truthy. -/
def possibleDeliveryParams (address : String)
    (postal_code dawn_delivery : Option String) : Params :=
  let params : Params := [("address", address)]
  let params : Params :=
    match postal_code with
    | some pc => if pc.isEmpty then params else setKey params "postalCode" pc
    | none => params
  match dawn_delivery with
  | some dd => if dd.isEmpty then params else setKey params "dawnDelivery" dd
  | none => params

/-- Embedding of `MallRepository.possible_delivery`: one GET to
`/api/mall/possibleDelivery` with the params above and the single
`Authorization` header, returning `response.text`. -/
def possible_delivery (transport : Transport) (address token : String)
    (postal_code dawn_delivery : Option String) :
    List OutboundRequest × Except Exn String :=
  let headers : Headers := [("Authorization", token)]
  let res := baseRepositoryRequest transport "GET" "/api/mall/possibleDelivery"
    none (some (possibleDeliveryParams address postal_code dawn_delivery))
    (some headers)
  (res.1, res.2.map Response.text)

/-- The uniform response dict of the service layer
(`app/services/base.py`): success flag, message, error code and data. -/
structure Envelope where
  success : Bool
  message : String
  error_code : Option String
  data : Option Json
deriving Repr, DecidableEq

/-- Embedding of `BaseService._handle_service_error`: the failure envelope
built from an exception and the name of the operation in flight. -/
def handle_service_error (error : Exn) (operation : String) : Envelope :=
  ⟨false, operation ++ " failed: " ++ excMessage error, some "SERVICE_ERROR", none⟩

/-- Embedding of `BaseService._create_success_response`. -/
def create_success_response (data : Json) (message : String) : Envelope :=
  ⟨true, message, none, some data⟩

/-- The try/except wrapper shared by every public method of
`AgencyService` and `MallService`: the entire method body runs inside
`try`, and `except Exception as e` converts any exception into
`_handle_service_error(e, operation)`. An exception therefore never
propagates past the method. -/
def serviceGuard (operation : String) (body : Except Exn Envelope) : Envelope :=
  match body with
  | .ok env => env
  | .error e => handle_service_error e operation

/-- Python `str.isspace` class of characters stripped by `str.strip()`:
space, tab, newline, carriage return, vertical tab and form feed. -/
def isSpaceChar (c : Char) : Bool :=
  c = ' ' || c = '\t' || c = '\n' || c = '\r' || c = '\x0b' || c = '\x0c'

/-- Model of the Python `str.strip()` method: drop whitespace from both
ends. -/
def pyStrip (s : String) : String :=
  String.mk (((s.data.dropWhile isSpaceChar).reverse.dropWhile
    isSpaceChar).reverse)

/-- Embedding of `BaseService._validate_auth_info`: false when either
field is empty or whitespace only. -/
def validate_auth_info (a : AuthInfo) : Bool :=
  if a.agency_id.isEmpty || a.auth_token.isEmpty then false
  else if (pyStrip a.agency_id).length == 0 then false
  else if (pyStrip a.auth_token).length == 0 then false
  else true

/-- Embedding of `AgencyService.generate_authentication_token`. The
awaited repository interaction (the pydantic request construction plus
`repository.generate_token`) is abstracted as `repoCall`: `ok` with the
data it returned, or `error` with whatever exception it raised. -/
def generate_authentication_token (agency_id api_key : String)
    (repoCall : Except Exn Json) : Envelope :=
  serviceGuard "Token generation" (
    if agency_id.isEmpty || api_key.isEmpty then
      .ok ⟨false, "Agency ID and API key are required", some "INVALID_INPUT", none⟩
    else
      match repoCall with
      | .ok d =>
          .ok (create_success_response d
            "Authentication token generated successfully")
      | .error e => .error e)

/-- Embedding of the address part of `SingleDeliveryRegisterRequest`. -/
structure AddressInfo where
  zipcode : String
  address : String
  receiver_name : String
  receiver_phone : String
deriving Repr, DecidableEq

/-- Embedding of one delivery item of `SingleDeliveryRegisterRequest`. -/
structure DeliveryItem where
  item_name : String
  quantity : Int
  price : Int
deriving Repr, DecidableEq

/-- Embedding of `SingleDeliveryRegisterRequest` as read by
`MallService._validate_delivery_request`. -/
structure SingleDeliveryRegisterRequest where
  mall_order_number : String
  delivery_date : String
  address : Option AddressInfo
  items : List DeliveryItem
deriving Repr, DecidableEq

/-- Embedding of `MallService._validate_delivery_request`: the
`is_valid` flag and the message of the returned dict. The Python loop
reports the first invalid item; since the message is the same constant
for every invalid item, `List.any` produces the identical result. -/
def validate_delivery_request (r : SingleDeliveryRegisterRequest) :
    Bool × String :=
  if r.mall_order_number.isEmpty then (false, "Mall order number is required")
  else if r.delivery_date.isEmpty then (false, "Delivery date is required")
  else
    match r.address with
    | none => (false, "Address information is required")
    | some addr =>
        if r.items.isEmpty then (false, "At least one item is required")
        else if addr.zipcode.isEmpty || addr.address.isEmpty ||
            addr.receiver_name.isEmpty || addr.receiver_phone.isEmpty then
          (false, "Complete address information is required")
        else if r.items.any (fun item =>
            item.item_name.isEmpty || decide (item.quantity ≤ 0) ||
            decide (item.price < 0)) then
          (false, "Invalid item information")
        else (true, "Valid request")

/-- Embedding of `MallService.register_single_delivery`; the awaited
`repository.register_single_delivery` call is abstracted as `repoCall`
exactly as in `generate_authentication_token`. -/
def register_single_delivery (req : SingleDeliveryRegisterRequest)
    (auth_info : AuthInfo) (repoCall : Except Exn Json) : Envelope :=
  serviceGuard "Single delivery registration" (
    if !validate_auth_info auth_info then
      .ok ⟨false, "Invalid authentication information", some "INVALID_AUTH", none⟩
    else
      let v := validate_delivery_request req
      if !v.1 then .ok ⟨false, v.2, some "INVALID_REQUEST", none⟩
      else
        match repoCall with
        | .ok d =>
            .ok (create_success_response d
              "Single delivery registered successfully")
        | .error e => .error e)

theorem dictGet_setKey_self {α : Type} (d : List (String × α)) (k : String)
    (v : α) : dictGet (setKey d k v) k = some v := by
  induction d with
  | nil => simp [setKey, dictGet]
  | cons hd tl ih =>
      obtain ⟨k2, v2⟩ := hd
      by_cases h : k2 = k
      · simp [setKey, h, dictGet]
      · simp [setKey, h, dictGet, ih]

theorem dictGet_setKey_ne {α : Type} (d : List (String × α)) (k q : String)
    (v : α) (hne : k ≠ q) : dictGet (setKey d k v) q = dictGet d q := by
  induction d with
  | nil => simp [setKey, dictGet, hne]
  | cons hd tl ih =>
      obtain ⟨k2, v2⟩ := hd
      by_cases h : k2 = k
      · subst h
        simp [setKey, dictGet, hne]
      · simp [setKey, h, dictGet, ih]

theorem dictUpdate_cons {α : Type} (d : List (String × α)) (k : String)
    (v : α) (t : List (String × α)) :
    dictUpdate d ((k, v) :: t) = dictUpdate (setKey d k v) t := rfl

theorem dictGet_dictUpdate_not_mem {α : Type} (d h : List (String × α))
    (q : String) (hq : ∀ p ∈ h, p.1 ≠ q) :
    dictGet (dictUpdate d h) q = dictGet d q := by
  induction h generalizing d with
  | nil => rfl
  | cons p t ih =>
      obtain ⟨k, v⟩ := p
      rw [dictUpdate_cons,
        ih _ (fun p2 hp2 => hq p2 (List.mem_cons_of_mem _ hp2))]
      exact dictGet_setKey_ne d k q v (hq (k, v) (List.mem_cons_self _ _))

theorem dictGet_dictUpdate_mem {α : Type} (d h : List (String × α))
    (k : String) (v : α) (hmem : (k, v) ∈ h)
    (hnd : (h.map Prod.fst).Nodup) :
    dictGet (dictUpdate d h) k = some v := by
  induction h generalizing d with
  | nil => cases hmem
  | cons p t ih =>
      obtain ⟨k1, v1⟩ := p
      rw [dictUpdate_cons]
      rw [List.map_cons, List.nodup_cons] at hnd
      rcases List.mem_cons.mp hmem with heq | hmem2
      · obtain ⟨hk, hv⟩ := Prod.mk.inj heq
        subst hk
        subst hv
        have hkt : ∀ p2 ∈ t, p2.1 ≠ k := by
          intro p2 hp2 hpk
          have hmap : p2.1 ∈ t.map Prod.fst := List.mem_map_of_mem Prod.fst hp2
          rw [hpk] at hmap
          exact hnd.1 hmap
        rw [dictGet_dictUpdate_not_mem _ _ _ hkt, dictGet_setKey_self]
      · exact ih _ hmem2 hnd.2

/-- The wire log of two successive invocations of
`BaseRepository._request` with an identical descriptor against the same
deterministic transport: each invocation is independent, so the logs
append. -/
def twiceTrace (transport : Transport) (method endpoint : String)
    (data : Option Json) (params : Option Params) (headers : Option Headers) :
    List OutboundRequest :=
  (baseRepositoryRequest transport method endpoint data params headers).1 ++
  (baseRepositoryRequest transport method endpoint data params headers).1

/-- C4: every single invocation of each bridge variant issues exactly one
wire-level HTTP request, whatever the transport returns (so there is no
batching, deduplication, retry, caching or memoization), and two
successive invocations with an identical descriptor issue two distinct
wire-level calls. The `HTTP_RETRIES` setting is declared but read by no
code path. -/
theorem C4_exactly_one_wire_call :
    ∀ (transport : Transport) (method endpoint : String) (data : Option Json)
      (params : Option Params) (headers : Option Headers) (hdrs : Headers),
      (baseRepositoryRequest transport method endpoint data params headers).1.length = 1 ∧
      (todayPickupRequest transport method endpoint hdrs data).1.length = 1 ∧
      (makeRequest http_client transport method endpoint headers params data).1.length = 1 ∧
      (twiceTrace transport method endpoint data params headers).length = 2 ∧
      twiceTrace transport method endpoint data params headers =
        [⟨method, endpoint, headers, params, data⟩,
         ⟨method, endpoint, headers, params, data⟩] := by
  intro transport method endpoint data params headers hdrs
  exact ⟨rfl, rfl, rfl, rfl, rfl⟩

/-- C6: the bridge transmits a request body verbatim — the single issued
wire call of `BaseRepository._request` carries exactly the JSON value
passed by the call site — and `AgencyRepository.update_delivery_state`
issues one PUT to `/api/agency/delivery/state` whose body is
`dto.model_dump(exclude_none=True)`, whose field names are the exact
camelCase pydantic names; for the scenario DTO with only `invoiceNumber`
and `status` set, the transmitted JSON object is exactly those two fields
with exact casing. -/
theorem C6_body_casing_verbatim :
    (∀ (transport : Transport) (method endpoint : String) (body : Json)
       (params : Option Params) (headers : Option Headers),
       (baseRepositoryRequest transport method endpoint (some body) params
         headers).1 = [⟨method, endpoint, headers, params, some body⟩]) ∧
    (∀ (transport : Transport) (dto : DeliveryAgencyStateUpdateDTO)
       (token agency_id : String),
       (update_delivery_state transport dto token agency_id).1 =
         [⟨"PUT", "/api/agency/delivery/state",
           some [("Authorization", token), ("agencyId", agency_id)], none,
           some dto.modelDump⟩]) ∧
    (∀ inv st : String,
       (DeliveryAgencyStateUpdateDTO.mk none none (some inv)
         (some st)).modelDump =
         .obj [("invoiceNumber", .str inv), ("status", .str st)]) := by
  exact ⟨fun _ _ _ _ _ _ => rfl, fun _ _ _ _ => rfl, fun _ _ => rfl⟩

/-- C7 as stated is false: only the `HTTPClient` variant has a
per-instance, configurable timeout defaulting to tens of seconds; the
`base_repository.py` variant constructs its `httpx.AsyncClient` with no
timeout argument, so its calls run at the library default of five
seconds, which is neither configurable through the class nor on the order
of tens of seconds. -/
theorem C7_claim_counterexample :
    (baseRepositoryInit "https://admin.todaypickup.com").timeout =
      httpxDefaultTimeoutSeconds ∧
    httpxDefaultTimeoutSeconds = 5 ∧
    ¬ 10 ≤ (baseRepositoryInit "https://admin.todaypickup.com").timeout := by
  exact ⟨rfl, rfl, by decide⟩

/-- C7 amended: every outbound call of every variant is bounded by a
fixed positive finite timeout, but only the `HTTPClient` variant reads it
from configuration (`HTTP_TIMEOUT`, default 30 seconds, tens of seconds);
the `base_repository.py` and `remote_repository.py` variants run at the
library default of five seconds whatever base url they are constructed
with. -/
theorem C7_amended_timeouts :
    (∀ s : Settings, (HTTPClient.init s).timeout = s.HTTP_TIMEOUT) ∧
    http_client.timeout = 30 ∧
    10 ≤ http_client.timeout ∧
    (∀ u : String, (baseRepositoryInit u).timeout = httpxDefaultTimeoutSeconds ∧
      (todayPickupRepositoryInit u).timeout = httpxDefaultTimeoutSeconds) ∧
    0 < httpxDefaultTimeoutSeconds ∧
    0 < http_client.timeout := by
  exact ⟨fun _ => rfl, rfl, by decide, fun _ => ⟨rfl, rfl⟩, by decide, by decide⟩

/-- C10: `MallRepository.possible_delivery` includes the query parameter
`postalCode` (respectively `dawnDelivery`) exactly when the corresponding
optional argument is truthy in the Python sense, so an empty string is
silently omitted exactly as if the argument were None, while `address` is
always included; and the single outbound call carries exactly this
parameter dict. -/
theorem C10_possible_delivery_truthy_params :
    ∀ (address token : String) (postal_code dawn_delivery : Option String)
      (transport : Transport),
      dictGet (possibleDeliveryParams address postal_code dawn_delivery)
        "address" = some address ∧
      dictGet (possibleDeliveryParams address postal_code dawn_delivery)
        "postalCode" =
        (if pyTruthy postal_code then postal_code else none) ∧
      dictGet (possibleDeliveryParams address postal_code dawn_delivery)
        "dawnDelivery" =
        (if pyTruthy dawn_delivery then dawn_delivery else none) ∧
      possibleDeliveryParams address (some "") dawn_delivery =
        possibleDeliveryParams address none dawn_delivery ∧
      possibleDeliveryParams address postal_code (some "") =
        possibleDeliveryParams address postal_code none ∧
      (possible_delivery transport address token postal_code dawn_delivery).1 =
        [⟨"GET", "/api/mall/possibleDelivery", some [("Authorization", token)],
          some (possibleDeliveryParams address postal_code dawn_delivery),
          none⟩] := by
  intro address token postal_code dawn_delivery transport
  have hemp : "".isEmpty = true := rfl
  refine ⟨?_, ?_, ?_, ?_, ?_, rfl⟩ <;>
    rcases postal_code with _ | pc <;>
    rcases dawn_delivery with _ | dd <;>
    simp only [possibleDeliveryParams, pyTruthy, hemp, if_true] <;>
    (repeat' split) <;>
    first
      | rfl
      | simp_all [dictGet, setKey]

/-- C9: `BaseRepository._build_headers` equals `auth_info.to_headers()`
updated with the additional headers, so caller-supplied entries override
the auth entries on key collision; with no additional headers the result
is exactly the `Authorization` / `AgencyId` dict, while the other
repository variant (`AgencyRepository.check_auth`) spells the agency
header `agencyId`. -/
theorem C9_build_headers_update :
    (∀ a : AuthInfo, build_headers a none =
      [("Authorization", a.auth_token), ("AgencyId", a.agency_id)]) ∧
    (∀ (a : AuthInfo) (h : Headers),
      build_headers a (some h) = dictUpdate a.to_headers h) ∧
    (∀ (a : AuthInfo) (h : Headers) (k v : String),
      (h.map Prod.fst).Nodup → (k, v) ∈ h →
      dictGet (build_headers a (some h)) k = some v) ∧
    (∀ token agency_id : String, checkAuthHeaders token agency_id =
      [("Authorization", token), ("agencyId", agency_id)]) ∧
    ("agencyId" : String) ≠ "AgencyId" := by
  have hsome : ∀ (a : AuthInfo) (h : Headers),
      build_headers a (some h) = dictUpdate a.to_headers h := by
    intro a h
    cases h with
    | nil => rfl
    | cons p t => rfl
  refine ⟨fun a => rfl, hsome, ?_, fun _ _ => rfl, by decide⟩
  intro a h k v hnd hmem
  rw [hsome]
  exact dictGet_dictUpdate_mem _ _ _ _ hmem hnd

/-- Witness for C9 at a concrete collision: a caller-supplied
`Authorization` entry overrides the token of the auth info. -/
theorem C9_build_headers_update_witness :
    dictGet (build_headers ⟨"A1", "tok"⟩
      (some [("Authorization", "override"), ("X-Trace", "t1")]))
      "Authorization" = some "override" :=
  C9_build_headers_update.2.2.1 ⟨"A1", "tok"⟩
    [("Authorization", "override"), ("X-Trace", "t1")]
    "Authorization" "override" (by decide) (by decide)

/-- C5: when the transport fails, both repository variants surface the
re-raised `httpx.RequestError` carrying the underlying cause as their
outcome — the error is unchanged in kind, and since the outcome is
exactly that error, no default or empty result is returned and no retry
happens. -/
theorem C5_transport_failure_propagates :
    ∀ (transport : Transport) (method endpoint : String) (data : Option Json)
      (params : Option Params) (headers : Option Headers) (hdrs : Headers)
      (cause : String),
      (transport ⟨method, endpoint, headers, params, data⟩ = .failure cause →
        (baseRepositoryRequest transport method endpoint data params
          headers).2 = .error (.requestError cause)) ∧
      (transport ⟨method, endpoint, some hdrs, none, data⟩ = .failure cause →
        (todayPickupRequest transport method endpoint hdrs data).2 =
          .error (.requestError cause)) := by
  intro transport method endpoint data params headers hdrs cause
  constructor
  · intro htr
    simp [baseRepositoryRequest, htr]
  · intro htr
    simp [todayPickupRequest, htr]

/-- Witness for C5: an unreachable transport makes both variants fail
with the transport cause. -/
theorem C5_transport_failure_propagates_witness :
    (baseRepositoryRequest (fun _ => .failure "connection refused") "GET"
      "/api/mall/delivery/INV123" none none
      (some [("Authorization", "Bearer t")])).2 =
      .error (.requestError "connection refused") ∧
    (todayPickupRequest (fun _ => .failure "connection refused") "GET"
      "/api/mall/delivery/INV123" [("Authorization", "Bearer t")] none).2 =
      .error (.requestError "connection refused") := by
  have h := C5_transport_failure_propagates
    (fun _ => .failure "connection refused") "GET" "/api/mall/delivery/INV123"
    none none (some [("Authorization", "Bearer t")])
    [("Authorization", "Bearer t")] "connection refused"
  exact ⟨h.1 rfl, h.2 rfl⟩

/-- C1 as stated is false at a concrete input: for the non-2xx response
with status 404 and valid-JSON body `null`, `_handle_response` raises the
generic API Error exception carrying only the re-parsed body, from which
the actual status code is not recoverable. -/
theorem C1_claim_counterexample :
    handle_response ⟨404, "null", some .null⟩ = .error (.apiError .null) ∧
    exnStatus (.apiError .null) = none :=
  ⟨rfl, rfl⟩

/-- C1 amended: every non-2xx response makes both variants fail with a
raised exception; in the `_request` variant the `httpx.HTTPStatusError`
always carries the actual status code together with the response as
best-effort payload, while in the `_handle_response` variant the raised
API Error carries the best-effort parsed body and includes the actual
status code only when the body is not valid JSON (via the fallback
message dict). -/
theorem C1_amended_non2xx_fails :
    (∀ r : Response, isSuccess r = false →
      (∀ j, r.jsonBody = some j →
        handle_response r = .error (.apiError j)) ∧
      (r.jsonBody = none →
        handle_response r = .error (.apiError (.obj
          [("message", .str (excMessage (.httpStatusError r))),
           ("status_code", .num (Int.ofNat r.status_code))])))) ∧
    (∀ (transport : Transport) (method endpoint : String) (data : Option Json)
       (params : Option Params) (headers : Option Headers) (r : Response),
      transport ⟨method, endpoint, headers, params, data⟩ = .response r →
      isSuccess r = false →
      (baseRepositoryRequest transport method endpoint data params
        headers).2 = .error (.httpStatusError r) ∧
      exnStatus (.httpStatusError r) = some r.status_code) := by
  constructor
  · intro r hr
    constructor
    · intro j hj
      simp [handle_response, raise_for_status, hr, hj]
    · intro hj
      simp [handle_response, raise_for_status, hr, hj]
  · intro transport method endpoint data params headers r htr hs
    constructor
    · simp [baseRepositoryRequest, htr, raise_for_status, hs]
    · rfl

/-- Witness for C1 amended: a 401 with an empty (hence non-JSON) body
raises the fallback API Error carrying the status code in one variant,
and the status-carrying `HTTPStatusError` in the other. -/
theorem C1_amended_non2xx_fails_witness :
    handle_response ⟨401, "", none⟩ = .error (.apiError (.obj
      [("message", .str (excMessage (.httpStatusError ⟨401, "", none⟩))),
       ("status_code", .num 401)])) ∧
    (baseRepositoryRequest (fun _ => .response ⟨401, "", none⟩) "POST"
      "/api/agency/auth" none none
      (some [("Authorization", "x"), ("agencyId", "A1")])).2 =
      .error (.httpStatusError ⟨401, "", none⟩) ∧
    exnStatus (.httpStatusError ⟨401, "", none⟩) = some 401 := by
  have h1 := (C1_amended_non2xx_fails.1 ⟨401, "", none⟩ rfl).2 rfl
  have h2 := C1_amended_non2xx_fails.2 (fun _ => .response ⟨401, "", none⟩)
    "POST" "/api/agency/auth" none none
    (some [("Authorization", "x"), ("agencyId", "A1")]) ⟨401, "", none⟩
    rfl rfl
  exact ⟨h1, h2.1, h2.2⟩

/-- C2 as stated is false at a concrete input: the 2xx response with
status 200 and the non-JSON body `hello` makes `_handle_response` raise
the API Error exception instead of returning the body. -/
theorem C2_claim_counterexample :
    isSuccess ⟨200, "hello", none⟩ = true ∧
    handle_response ⟨200, "hello", none⟩ = .error (.apiError (.obj
      [("message", .str "Expecting value: hello"),
       ("status_code", .num 200)])) :=
  ⟨rfl, rfl⟩

/-- C2 amended: for every 2xx response the raw-text variants return the
body text unchanged (whether or not it is valid JSON), and the
JSON-parsing variant `_handle_response` returns exactly the parsed body
when the body is valid JSON but raises the fallback API Error when it is
not. -/
theorem C2_amended_2xx_returns_body :
    (∀ (r : Response) (j : Json), isSuccess r = true → r.jsonBody = some j →
      handle_response r = .ok j) ∧
    (∀ (transport : Transport) (method endpoint : String) (data : Option Json)
       (params : Option Params) (headers : Option Headers) (r : Response),
      transport ⟨method, endpoint, headers, params, data⟩ = .response r →
      isSuccess r = true →
      (baseRepositoryRequest transport method endpoint data params
        headers).2 = .ok r) ∧
    (∀ (transport : Transport) (invoice_number token : String) (r : Response),
      transport ⟨"GET", "/api/mall/delivery/" ++ invoice_number,
          some [("Authorization", token)], none, none⟩ = .response r →
      isSuccess r = true →
      (find_by_invoice transport invoice_number token).2 = .ok r.text) ∧
    (∀ r : Response, isSuccess r = true → r.jsonBody = none →
      handle_response r = .error (.apiError (.obj
        [("message", .str (excMessage (.jsonDecodeError r.text))),
         ("status_code", .num (Int.ofNat r.status_code))]))) := by
  refine ⟨?_, ?_, ?_, ?_⟩
  · intro r j hs hj
    simp [handle_response, raise_for_status, responseJson, hs, hj]
  · intro transport method endpoint data params headers r htr hs
    simp [baseRepositoryRequest, htr, raise_for_status, hs]
  · intro transport invoice_number token r htr hs
    simp [find_by_invoice, baseRepositoryRequest, htr, raise_for_status, hs,
      Except.map]
  · intro r hs hj
    simp [handle_response, raise_for_status, responseJson, hs, hj]

/-- Witness for C2 amended: the mock upstream of end-to-end scenario 1
returns 200 with the parsed body `status: in_transit`; the JSON variant
returns exactly that object and the text variant returns exactly the
body text. -/
theorem C2_amended_2xx_returns_body_witness :
    handle_response ⟨200, "body", some (.obj [("status",
      .str "in_transit")])⟩ = .ok (.obj [("status", .str "in_transit")]) ∧
    (find_by_invoice (fun _ => .response ⟨200, "body", some (.obj [("status",
      .str "in_transit")])⟩) "INV123" "Bearer t").2 = .ok "body" := by
  have h1 := C2_amended_2xx_returns_body.1
    ⟨200, "body", some (.obj [("status", .str "in_transit")])⟩
    (.obj [("status", .str "in_transit")]) rfl rfl
  have h2 := C2_amended_2xx_returns_body.2.2.1
    (fun _ => .response ⟨200, "body", some (.obj [("status",
      .str "in_transit")])⟩) "INV123" "Bearer t"
    ⟨200, "body", some (.obj [("status", .str "in_transit")])⟩ rfl rfl
  exact ⟨h1, h2⟩

/-- C3 as stated is false at a concrete input: `HTTPClient._make_request`
does not merge caller headers over no defaults — the wire call carries
the hard-coded `Content-Type` and `Accept` defaults in addition to the
caller header, so the outbound headers differ from the input headers. -/
theorem C3_claim_counterexample :
    (makeRequest http_client (fun _ => .response ⟨200, "", none⟩) "GET"
      "/api/mall/possibleDelivery" (some [("X-Custom", "y")]) none none).1 =
      [⟨"GET", "https://admin.todaypickup.com/api/mall/possibleDelivery",
        some [("Content-Type", "application/json"),
              ("Accept", "application/json"), ("X-Custom", "y")],
        none, none⟩] ∧
    ([("Content-Type", "application/json"), ("Accept", "application/json"),
      ("X-Custom", "y")] : Headers) ≠ [("X-Custom", "y")] := by
  exact ⟨rfl, by decide⟩

/-- C3 amended: the `base_repository.py` and `remote_repository.py`
variants pass method, path, headers, query parameters and body to the
single wire call verbatim, with no default headers and no mutation of
keys or casing; the `HTTPClient` variant passes method, url, params and
body verbatim but merges the caller headers over the two hard-coded
default headers, caller entries overriding the defaults on key
collision. -/
theorem C3_amended_verbatim_headers :
    (∀ (transport : Transport) (method endpoint : String) (data : Option Json)
       (params : Option Params) (headers : Option Headers),
      (baseRepositoryRequest transport method endpoint data params
        headers).1 = [⟨method, endpoint, headers, params, data⟩]) ∧
    (∀ (transport : Transport) (method path : String) (hdrs : Headers)
       (json : Option Json),
      (todayPickupRequest transport method path hdrs json).1 =
        [⟨method, path, some hdrs, none, json⟩]) ∧
    (∀ (client : HTTPClient) (transport : Transport) (method endpoint : String)
       (h : Headers) (params : Option Params) (json_data : Option Json),
      h ≠ [] →
      (makeRequest client transport method endpoint (some h) params
        json_data).1 =
        [⟨method, client.base_url ++ endpoint,
          some (dictUpdate [("Content-Type", "application/json"),
                            ("Accept", "application/json")] h),
          params, json_data⟩]) ∧
    (∀ (k v : String) (h : Headers),
      (h.map Prod.fst).Nodup → (k, v) ∈ h →
      dictGet (dictUpdate [("Content-Type", "application/json"),
                           ("Accept", "application/json")] h) k = some v) := by
  refine ⟨fun _ _ _ _ _ _ => rfl, fun _ _ _ _ _ => rfl, ?_, ?_⟩
  · intro client transport method endpoint h params json_data hne
    cases h with
    | nil => cases hne rfl
    | cons p t => rfl
  · intro k v h hnd hmem
    exact dictGet_dictUpdate_mem _ _ _ _ hmem hnd

/-- Witness for C3 amended at a concrete caller header: the merged wire
headers are the two defaults followed by the caller entry, and the
caller entry is readable under its own key. -/
theorem C3_amended_verbatim_headers_witness :
    (makeRequest http_client (fun _ => .response ⟨200, "", none⟩) "GET" "/x"
      (some [("X-Custom", "y")]) none none).1 =
      [⟨"GET", "https://admin.todaypickup.com/x",
        some (dictUpdate [("Content-Type", "application/json"),
                          ("Accept", "application/json")]
          [("X-Custom", "y")]), none, none⟩] ∧
    dictGet (dictUpdate [("Content-Type", "application/json"),
      ("Accept", "application/json")] [("X-Custom", "y")]) "X-Custom" =
      some "y" := by
  have h1 := C3_amended_verbatim_headers.2.2.1 http_client
    (fun _ => .response ⟨200, "", none⟩) "GET" "/x" [("X-Custom", "y")]
    none none (by decide)
  have h2 := C3_amended_verbatim_headers.2.2.2 "X-Custom" "y"
    [("X-Custom", "y")] (by decide) (by decide)
  exact ⟨h1, h2⟩

/-- C8: every public service operation runs its whole body inside the
catch wrapper, so an exception raised by the repository (or anywhere in
the body) after validation passes is converted into the failure envelope
with `success = False`, `error_code = SERVICE_ERROR`, a message embedding
the operation name and the exception text, and `data = None`; since the
operations return envelopes in every case, no exception propagates to
the caller. -/
theorem C8_service_exception_totality :
    (∀ (operation : String) (e : Exn),
      serviceGuard operation (.error e) =
        ⟨false, operation ++ " failed: " ++ excMessage e,
         some "SERVICE_ERROR", none⟩) ∧
    (∀ (agency_id api_key : String) (e : Exn),
      agency_id.isEmpty = false → api_key.isEmpty = false →
      generate_authentication_token agency_id api_key (.error e) =
        handle_service_error e "Token generation") ∧
    (∀ (req : SingleDeliveryRegisterRequest) (auth_info : AuthInfo) (e : Exn),
      validate_auth_info auth_info = true →
      (validate_delivery_request req).1 = true →
      register_single_delivery req auth_info (.error e) =
        handle_service_error e "Single delivery registration") := by
  refine ⟨fun _ _ => rfl, ?_, ?_⟩
  · intro aid key e h1 h2
    simp [generate_authentication_token, h1, h2, serviceGuard]
  · intro req auth e h1 h2
    simp [register_single_delivery, h1, h2, serviceGuard]

/-- Witness for C8: a transport exception surfacing through the
repository is converted into the SERVICE_ERROR envelope by both modelled
operations. -/
theorem C8_service_exception_totality_witness :
    generate_authentication_token "A1" "K1" (.error (.requestError "boom")) =
      ⟨false, "Token generation failed: boom", some "SERVICE_ERROR", none⟩ ∧
    register_single_delivery
      ⟨"ORD1", "2025-01-01", some ⟨"12345", "1 Main St", "Kim", "010"⟩,
        [⟨"Socks", 1, 0⟩]⟩ ⟨"A1", "tok"⟩ (.error (.requestError "boom")) =
      ⟨false, "Single delivery registration failed: boom",
       some "SERVICE_ERROR", none⟩ := by
  have h1 := C8_service_exception_totality.2.1 "A1" "K1"
    (.requestError "boom") rfl rfl
  have h2 := C8_service_exception_totality.2.2
    ⟨"ORD1", "2025-01-01", some ⟨"12345", "1 Main St", "Kim", "010"⟩,
      [⟨"Socks", 1, 0⟩]⟩ ⟨"A1", "tok"⟩ (.requestError "boom")
    (by decide) (by decide)
  exact ⟨h1, h2⟩
